import Mathlib

/-!
Shallow embedding of the Instagram-Content-Analyzer monitoring and
momentum-scoring pipeline (src/jobs/analyze.py, src/jobs/monitor.py,
src/jobs/deliver.py, src/instagram/fetch.py, src/instagram/parse.py,
src/scheduler.py).

Modelling conventions:
- timestamps are rational numbers of seconds since the epoch (UTC);
- Python float literals (1.5, 2.0, 1.2, 0.9, 0.01, 0.1) are idealised as
  the exact rationals they denote in the source text;
- `round(x, 2)` is idealised as exact decimal round-half-even to two places;
- the persistent store is modelled as lists of rows; a query with
  `.order("captured_at", desc=True)` is modelled by a descending sort.
-/

namespace InstaPipeline

/-- A row of the `reel_snapshots` table restricted to one (project, reel_url)
pair: the columns selected by the jobs (views, likes, comments, captured_at). -/
structure Snap where
  views : Int
  likes : Int
  comments : Int
  captured_at : ℚ
deriving DecidableEq, Repr

/-- Descending capture-time order used by `.order("captured_at", desc=True)`. -/
def snapGE (a b : Snap) : Prop := b.captured_at ≤ a.captured_at

instance : DecidableRel snapGE := fun a b => inferInstanceAs (Decidable (b.captured_at ≤ a.captured_at))

instance : IsTotal Snap snapGE := ⟨fun a b => le_total b.captured_at a.captured_at⟩

instance : IsTrans Snap snapGE := ⟨fun _ _ _ h1 h2 => le_trans h2 h1⟩

/-- The snapshots of one (project, reel_url) pair as returned by the store
with `.order("captured_at", desc=True)`. -/
def sortSnapsDesc (l : List Snap) : List Snap := l.insertionSort snapGE

/-- Exact decimal round-half-even of a rational (idealisation of Python
`round` at the integer level). -/
def roundHalfEven (q : ℚ) : ℤ :=
  if q - ⌊q⌋ < 1/2 then ⌊q⌋
  else if q - ⌊q⌋ > 1/2 then ⌊q⌋ + 1
  else if ⌊q⌋ % 2 = 0 then ⌊q⌋ else ⌊q⌋ + 1

/-- Idealisation of Python `round(q, 2)`. -/
def round2 (q : ℚ) : ℚ := (roundHalfEven (q * 100) : ℚ) / 100

/-- The four trend labels produced by `detect_trend` (emoji suffixes of the
source strings dropped). -/
inductive Trend
  | PEAK
  | RISING
  | DYING
  | STABLE
deriving DecidableEq, Repr

/-- jobs/analyze.py `detect_trend`: first matching rule wins. -/
def detect_trend (rate_vph score prev_score : ℚ) : Trend :=
  if rate_vph ≥ 300 ∧ score ≥ prev_score * (9/10) then .PEAK
  else if rate_vph ≥ 80 ∧ score > prev_score then .RISING
  else if rate_vph ≤ 20 ∧ score < prev_score then .DYING
  else .STABLE

/-- jobs/analyze.py `hours_between` on timestamps in seconds: elapsed hours
floored at 0.01. -/
def hours_between (t1 t2 : ℚ) : ℚ := max ((t2 - t1) / 3600) (1/100)

/-- One entry of the `ranked` list built by `run_analyze` (the "age" display
string is kept as its integer minute count `int(hrs * 60)`). -/
structure RankedItem where
  url : String
  age : Int
  dv : Int
  dl : Int
  dc : Int
  rate : ℚ
  score : ℚ
  trend : Trend
deriving DecidableEq, Repr

/-- The per-reel body of the loop in `run_analyze`: fetch the two most recent
snapshots (`order desc, limit 2`), skip the reel when fewer than two exist,
otherwise compute deltas, rate, engagement, score, prev_score and trend. -/
def analyzeReel (url : String) (snaps : List Snap) : Option RankedItem :=
  match sortSnapsDesc snaps with
  | cur :: prev :: _ =>
    let hrs := hours_between prev.captured_at cur.captured_at
    let dv := cur.views - prev.views
    let dl := cur.likes - prev.likes
    let dc := cur.comments - prev.comments
    let rate_vph := (dv : ℚ) / hrs
    let engagement := ((dl : ℚ) / hrs) * (3/2) + ((dc : ℚ) / hrs) * 2
    let score := rate_vph * (6/5) + engagement
    let prev_score := max ((prev.views : ℚ) / hrs) 1
    some { url := url, age := ⌊hrs * 60⌋, dv := dv, dl := dl, dc := dc,
           rate := round2 rate_vph, score := round2 score,
           trend := detect_trend rate_vph score prev_score }
  | _ => none

/-- Descending score order used by `ranked.sort(key=lambda x: x["score"],
reverse=True)`. -/
def rankGE (a b : RankedItem) : Prop := b.score ≤ a.score

instance : DecidableRel rankGE := fun a b => inferInstanceAs (Decidable (b.score ≤ a.score))

instance : IsTotal RankedItem rankGE := ⟨fun a b => le_total b.score a.score⟩

instance : IsTrans RankedItem rankGE := ⟨fun _ _ _ h1 h2 => le_trans h2 h1⟩

def rankedSortDesc (l : List RankedItem) : List RankedItem := l.insertionSort rankGE

/-- A row of the `reels` table, carrying (as a modelling join, the table is
keyed by (project_id, reel_url)) the snapshot rows of the same key. -/
structure ReelRow where
  reel_url : String
  views : Int
  likes : Int
  comments : Int
  last_seen_at : ℚ
  missing_count : Int
  is_recommended : Bool
  score : Option ℚ
  trend : Option Trend
  analyzed_at : Option ℚ
  snaps : List Snap
deriving DecidableEq, Repr

/-- First write of `run_analyze` prod mode: `update {is_recommended: False}`
over all reels of the project. -/
def clearFlags (reels : List ReelRow) : List ReelRow :=
  reels.map fun r => { r with is_recommended := false }

/-- Second write of `run_analyze` prod mode: set score, trend, is_recommended
and analyzed_at on the row whose reel_url is the top-ranked one. -/
def flagBest (best : RankedItem) (now : ℚ) (reels : List ReelRow) : List ReelRow :=
  reels.map fun r =>
    if r.reel_url = best.url then
      { r with score := some best.score, trend := some best.trend,
               is_recommended := true, analyzed_at := some now }
    else r

/-- The `ranked` list of `run_analyze` after its sort: one entry per reel
with at least two snapshots, sorted by score descending. -/
def rankReels (reels : List ReelRow) : List RankedItem :=
  rankedSortDesc (reels.filterMap fun r => analyzeReel r.reel_url r.snaps)

/-- The per-project body of `run_analyze`: build `ranked` over the project's
reels, skip the project when it is empty, print-only in preview mode, and in
prod mode clear all recommendation flags then flag the top-scoring reel. -/
def run_analyze_project (preview : Bool) (now : ℚ) (reels : List ReelRow) : List ReelRow :=
  match rankReels reels with
  | [] => reels
  | best :: _ => if preview then reels else flagBest best now (clearFlags reels)

/-! ## jobs/monitor.py -/

def SNAPSHOT_RETENTION : Nat := 6

def MIN_VIEW_DELTA : Int := 20

def MIN_VIEWS_PER_HOUR : ℚ := 5

def MAX_INACTIVE_DAYS : ℚ := 2

def MAX_REEL_AGE_DAYS : Int := 5

def MIN_TOTAL_VIEWS : Int := 100

def HARD_STALE_DAYS : ℚ := 3

/-- A freshly fetched observation of a reel (the fields of `reel` that
`should_insert_snapshot` reads). -/
structure Obs where
  views : Int
  likes : Int
  comments : Int
deriving DecidableEq, Repr

/-- jobs/monitor.py `should_insert_snapshot`: `get_snapshots(..., limit=1)`
returns the most recent snapshot; no snapshot means always record; then
movement (view delta / any like or comment increase), then the 6-hour
(360-minute) heartbeat, else skip. -/
def should_insert_snapshot (now : ℚ) (snaps : List Snap) (reel : Obs) : Bool :=
  match (sortSnapsDesc snaps).head? with
  | none => true
  | some last =>
    let mins_since := (now - last.captured_at) / 60
    let dv := reel.views - last.views
    let dl := reel.likes - last.likes
    let dc := reel.comments - last.comments
    if dv ≥ MIN_VIEW_DELTA ∨ dl > 0 ∨ dc > 0 then true
    else if mins_since ≥ 360 then true
    else false

/-- jobs/monitor.py `trim_snapshots`: select all rows of the key ordered by
captured_at descending; when more than SNAPSHOT_RETENTION exist, delete every
row after the first SNAPSHOT_RETENTION (result = the set of surviving rows). -/
def trim_snapshots (snaps : List Snap) : List Snap :=
  if snaps.length > SNAPSHOT_RETENTION then (sortSnapsDesc snaps).take SNAPSHOT_RETENTION
  else snaps

/-- The `B — flat or weak growth` block of `should_prune_reel`, over the two
most recent snapshots (`len(snaps) >= 2` guard: anything shorter falls
through to false). -/
def flatOrWeakGrowth (snaps2 : List Snap) : Bool :=
  match snaps2 with
  | cur :: prev :: _ =>
    if cur.views ≤ prev.views then true
    else
      let hours := max ((cur.captured_at - prev.captured_at) / 3600) (1/10)
      decide (((cur.views - prev.views : Int) : ℚ) / hours < MIN_VIEWS_PER_HOUR)
  | _ => false

/-- jobs/monitor.py `should_prune_reel`: hard-stale kill, inactivity,
flat/weak growth over the two most recent snapshots (only when two exist),
then old-and-weak; `timedelta.days` is the floor of elapsed days. -/
def should_prune_reel (now : ℚ) (reel : ReelRow) : Bool :=
  if now - reel.last_seen_at > HARD_STALE_DAYS * 86400 then true
  else if now - reel.last_seen_at > MAX_INACTIVE_DAYS * 86400 then true
  else if flatOrWeakGrowth ((sortSnapsDesc reel.snaps).take 2) then true
  else decide (⌊(now - reel.last_seen_at) / 86400⌋ ≥ MAX_REEL_AGE_DAYS ∧ reel.views < MIN_TOTAL_VIEWS)

/-! ## instagram/parse.py -/

/-- An item produced by the parser: url, views, likes, comments, caption. -/
structure Item where
  url : String
  views : Nat
  likes : Nat
  comments : Nat
  caption : String
deriving DecidableEq, Repr

/-- One `edge.node` of the payload, restricted to the fields the parser
reads; absent JSON keys are `none`, and `caption_edges` holds the text of
each `edge_media_to_caption` edge. -/
structure Node where
  is_video : Bool
  play_count : Option Nat
  video_view_count : Option Nat
  like_count : Nat
  comment_count : Nat
  shortcode : String
  caption_edges : List String
deriving DecidableEq, Repr

/-- Python `a or b` on an optional count and a fallback: a missing or zero
left operand is falsy and yields the fallback. -/
def pyOr (a : Option Nat) (b : Nat) : Nat :=
  match a with
  | some n => if n ≠ 0 then n else b
  | none => b

/-- The dict appended per video node: `views = play_count or video_view_count
or like_count`, caption from the first caption edge or empty. -/
def mkItem (n : Node) : Item :=
  { url := "https://www.instagram.com/reel/" ++ n.shortcode ++ "/",
    views := pyOr n.play_count (pyOr n.video_view_count n.like_count),
    likes := n.like_count,
    comments := n.comment_count,
    caption := n.caption_edges.headD "" }

/-- instagram/parse.py `parse_reels_from_json`: `none` models the KeyError
path (payload lacking data.user.edge_owner_to_timeline_media.edges); video
nodes become items; `reels[:5]` caps the result. -/
def parse_reels_from_json (data : Option (List Node)) : List Item :=
  match data with
  | none => []
  | some edges => ((edges.filter (·.is_video)).map mkItem).take 5

/-! ## instagram/fetch.py -/

/-- The module-level fetch state: the process-wide `_response_blocked` flag. -/
structure FetchState where
  response_blocked : Bool
deriving DecidableEq, Repr

/-- Outcome of the one HTTP request a non-short-circuited `fetch_reels` call
issues: a raised `requests.RequestException`, or a response with a status
code and a body (`none` = `res.json()` raises, `some data` = the parsed
payload handed to the parser). -/
inductive HttpOutcome
  | netError
  | resp (status : Nat) (body : Option (Option (List Node)))
deriving DecidableEq, Repr

/-- instagram/fetch.py `fetch_reels`. Result components: the return value
(`none` is the BLOCKED sentinel `None`, `some items` a list), the new module
state, and whether an HTTP request was issued. -/
def fetch_reels (st : FetchState) (out : HttpOutcome) :
    Option (List Item) × FetchState × Bool :=
  if st.response_blocked then (none, st, false)
  else
    match out with
    | .netError => (some [], st, true)
    | .resp status body =>
      if status = 401 ∨ status = 403 ∨ status = 429 then
        (none, { response_blocked := true }, true)
      else if status ≠ 200 then (some [], st, true)
      else
        match body with
        | none => (some [], st, true)
        | some data => (some (parse_reels_from_json data), st, true)

/-- The fetch sequence of one `run_monitor` run over a list of usernames
(each username's HTTP outcome given by the oracle list): `fetch_reels` is
called per username; a `None` result sets the run-local `blocked` variable
and breaks out of the loop, so no further fetch happens in that run. The
module-level `FetchState` threads through; `run_monitor` and
`monitor_loop` (src/scheduler.py) never write `_response_blocked`. -/
def monitorFetchLoop : FetchState → List HttpOutcome → FetchState × List (Option (List Item))
  | st, [] => (st, [])
  | st, o :: os =>
    match fetch_reels st o with
    | (none, st1, _) => (st1, [none])
    | (some items, st1, _) =>
      let rest := monitorFetchLoop st1 os
      (rest.1, some items :: rest.2)

/-! ## jobs/deliver.py -/

/-- The `delivery_settings` columns the gate reads; the timezone is modelled
by its offset from UTC in seconds. -/
structure DeliverySettings where
  send_hour : Nat
  tz_offset : ℚ
deriving DecidableEq, Repr

/-- A row of the append-only `sent_reels` table. -/
structure SentRecord where
  project_id : String
  reel_url : String
  sent_at : ℚ
deriving DecidableEq, Repr

/-- `utc_now().replace(hour=0, minute=0, second=0, microsecond=0)`: the start
of the current UTC day. -/
def startOfUtcDay (t : ℚ) : ℚ := (⌊t / 86400⌋ : ℚ) * 86400

/-- Seconds elapsed since the start of the current local calendar day. -/
def secondsIntoLocalDay (t tz : ℚ) : ℚ := (t + tz) - startOfUtcDay (t + tz)

/-- jobs/deliver.py `is_delivery_due`: current local time is at or after
`send_hour:00:00` of the current local day. -/
def is_delivery_due (s : DeliverySettings) (now : ℚ) : Bool :=
  secondsIntoLocalDay now s.tz_offset ≥ (s.send_hour : ℚ) * 3600

/-- jobs/deliver.py `already_sent_today`: a `sent_reels` row of the project
with `sent_at ≥` start of the current UTC day exists. -/
def already_sent_today (sent : List SentRecord) (pid : String) (now : ℚ) : Bool :=
  sent.any fun r => decide (r.project_id = pid ∧ startOfUtcDay now ≤ r.sent_at)

def DEV_MODE : Bool := false

/-- The per-project data `run_deliver` queries: the project id and owner, its
delivery settings row (if any), the owner's telegram chat id (if any), and
the project's reels. -/
structure DeliverProject where
  id : String
  user_id : String
  settings : Option DeliverySettings
  chat_id : Option String
  reels : List ReelRow
deriving DecidableEq, Repr

/-- The per-project body of `run_deliver`: missing settings or telegram chat
skip; time gate and per-day gate skip (when not DEV_MODE); no recommended
reel skips; otherwise `send_message` runs — on success a `sent_reels` row is
appended and the project counts 1; on failure (`sendOk = false`,
`raise_for_status` raising) nothing is written and the exception propagates
(third component false), since `run_deliver` has no per-project handler. -/
def deliver_project (now : ℚ) (sent : List SentRecord) (p : DeliverProject)
    (sendOk : Bool) : List SentRecord × Nat × Bool :=
  match p.settings with
  | none => (sent, 0, true)
  | some s =>
    match p.chat_id with
    | none => (sent, 0, true)
    | some _ =>
      if !DEV_MODE && !(is_delivery_due s now) then (sent, 0, true)
      else if !DEV_MODE && already_sent_today sent p.id now then (sent, 0, true)
      else
        match p.reels.find? (·.is_recommended) with
        | none => (sent, 0, true)
        | some reel =>
          if sendOk then (sent ++ [⟨p.id, reel.reel_url, now⟩], 1, true)
          else (sent, 0, false)

/-- jobs/deliver.py `run_deliver` over the resolved project list: processes
projects in order accumulating `delivered_count`; an unhandled send exception
(third component false) aborts the loop, leaving later projects unprocessed. -/
def run_deliver (now : ℚ) (sendOk : String → Bool) :
    List DeliverProject → List SentRecord → List SentRecord × Nat × Bool
  | [], sent => (sent, 0, true)
  | p :: ps, sent =>
    match deliver_project now sent p (sendOk p.id) with
    | (sent1, c, true) =>
      let rest := run_deliver now sendOk ps sent1
      (rest.1, c + rest.2.1, rest.2.2)
    | (sent1, c, false) => (sent1, c, false)

/-! ## Concrete inputs used by witnesses and counterexamples -/

/-- The spec's worked example, previous snapshot: 1000 views at time T = 0. -/
def exPrev : Snap := { views := 1000, likes := 100, comments := 20, captured_at := 0 }

/-- The spec's worked example, current snapshot: 1400 views one hour later,
likes +10, comments +5. -/
def exCur : Snap := { views := 1400, likes := 110, comments := 25, captured_at := 3600 }

/-- Eight snapshots in scrambled insert order, for the trim witness. -/
def exTrimSnaps : List Snap :=
  [ { views := 50, likes := 1, comments := 0, captured_at := 500 },
    { views := 10, likes := 1, comments := 0, captured_at := 100 },
    { views := 80, likes := 1, comments := 0, captured_at := 800 },
    { views := 20, likes := 1, comments := 0, captured_at := 200 },
    { views := 70, likes := 1, comments := 0, captured_at := 700 },
    { views := 30, likes := 1, comments := 0, captured_at := 300 },
    { views := 60, likes := 1, comments := 0, captured_at := 600 },
    { views := 40, likes := 1, comments := 0, captured_at := 400 } ]

/-- The amended fallback rule for the view count, stated from the corrected
spec words: the first present AND nonzero field among the primary play count
and the alternate video view count, else the like count (Python `or`
treats a present zero as absent). -/
def viewsBestMetric (n : Node) : Nat :=
  match n.play_count with
  | some v =>
    if v ≠ 0 then v
    else
      match n.video_view_count with
      | some w => if w ≠ 0 then w else n.like_count
      | none => n.like_count
  | none =>
    match n.video_view_count with
    | some w => if w ≠ 0 then w else n.like_count
    | none => n.like_count

/-- A video node whose primary play-count field is present but zero, while
the alternate video-view-count field is 50. -/
def cexNode : Node :=
  { is_video := true, play_count := some 0, video_view_count := some 50,
    like_count := 7, comment_count := 3, shortcode := "abc", caption_edges := [] }

/-- A healthy video node used for the fetch counterexample payload. -/
def goodNode : Node :=
  { is_video := true, play_count := some 100, video_view_count := none,
    like_count := 5, comment_count := 1, shortcode := "ok", caption_edges := ["hi"] }

/-- First run's HTTP outcomes: one request answered 403. -/
def run1Outcomes : List HttpOutcome := [.resp 403 none]

/-- Next run's HTTP outcomes: one request that would succeed with a parseable
payload. -/
def run2Outcomes : List HttpOutcome := [.resp 200 (some (some [goodNode]))]

/-- Two reels of one project for the C2 witness: "a" has two snapshots, "b"
only one (and is stale-flagged recommended from an earlier pass). -/
def w2Reels : List ReelRow :=
  [ { reel_url := "a", views := 1400, likes := 110, comments := 25,
      last_seen_at := 3600, missing_count := 0, is_recommended := false,
      score := none, trend := none, analyzed_at := none,
      snaps := [exPrev, exCur] },
    { reel_url := "b", views := 10, likes := 1, comments := 0,
      last_seen_at := 3600, missing_count := 0, is_recommended := true,
      score := none, trend := none, analyzed_at := none,
      snaps := [{ views := 10, likes := 1, comments := 0, captured_at := 0 }] } ]

/-- A project for the C10 witness: a previously recommended reel with one
snapshot and another reel with none — nothing is analyzable. -/
def w10Reels : List ReelRow :=
  [ { reel_url := "keep", views := 500, likes := 50, comments := 5,
      last_seen_at := 0, missing_count := 0, is_recommended := true,
      score := some 10, trend := some Trend.RISING, analyzed_at := some 0,
      snaps := [exPrev] },
    { reel_url := "other", views := 3, likes := 0, comments := 0,
      last_seen_at := 0, missing_count := 1, is_recommended := false,
      score := none, trend := none, analyzed_at := none, snaps := [] } ]

/-- Delivery settings sending at or after local midnight, UTC timezone. -/
def wSettings : DeliverySettings := { send_hour := 0, tz_offset := 0 }

/-- A recommended reel row belonging to project "p1". -/
def wReel1 : ReelRow :=
  { reel_url := "r1", views := 100, likes := 10, comments := 1,
    last_seen_at := 0, missing_count := 0, is_recommended := true,
    score := some 5, trend := some Trend.RISING, analyzed_at := some 0, snaps := [] }

/-- A recommended reel row belonging to project "p2". -/
def wReel2 : ReelRow :=
  { reel_url := "r2", views := 200, likes := 20, comments := 2,
    last_seen_at := 0, missing_count := 0, is_recommended := true,
    score := some 9, trend := some Trend.PEAK, analyzed_at := some 0, snaps := [] }

/-- A recommended reel row belonging to project "p3". -/
def wReel3 : ReelRow :=
  { reel_url := "r3", views := 300, likes := 30, comments := 3,
    last_seen_at := 0, missing_count := 0, is_recommended := true,
    score := some 7, trend := some Trend.STABLE, analyzed_at := some 0, snaps := [] }

/-- A fully eligible project "p1" (settings, chat, recommendation present). -/
def wProj1 : DeliverProject :=
  { id := "p1", user_id := "u1", settings := some wSettings,
    chat_id := some "c1", reels := [wReel1] }

/-- A fully eligible project "p2". -/
def wProj2 : DeliverProject :=
  { id := "p2", user_id := "u2", settings := some wSettings,
    chat_id := some "c2", reels := [wReel2] }

/-- A fully eligible project "p3", used by the C3 witness. -/
def wProj3 : DeliverProject :=
  { id := "p3", user_id := "u3", settings := some wSettings,
    chat_id := some "c3", reels := [wReel3] }

/-- Send outcomes for the C5 scenario: the notification send raises for
"p1" and succeeds for "p2". -/
def cexSendOk : String → Bool := fun s => decide (s = "p2")

/-- A reel last observed at time 0 with strong growth, for the prune witness
(observed 4 days in the past relative to `now = 4 * 86400`). -/
def exStaleReel : ReelRow :=
  { reel_url := "https://www.instagram.com/reel/stale/", views := 100000,
    likes := 500, comments := 100, last_seen_at := 0, missing_count := 0,
    is_recommended := false, score := none, trend := none, analyzed_at := none,
    snaps := [ { views := 100000, likes := 500, comments := 100, captured_at := 0 },
               { views := 1000, likes := 5, comments := 1, captured_at := -3600 } ] }

end InstaPipeline

namespace InstaPipeline

/-! ## Helper lemmas about the store-order sorts -/

theorem sortSnapsDesc_perm (l : List Snap) : List.Perm (sortSnapsDesc l) l :=
  List.perm_insertionSort _ _

theorem sortSnapsDesc_length (l : List Snap) : (sortSnapsDesc l).length = l.length :=
  List.length_insertionSort _ _

theorem sortSnapsDesc_sorted (l : List Snap) : List.Sorted snapGE (sortSnapsDesc l) :=
  List.sorted_insertionSort _ _

theorem rankedSortDesc_perm (l : List RankedItem) : List.Perm (rankedSortDesc l) l :=
  List.perm_insertionSort _ _

theorem rankedSortDesc_sorted (l : List RankedItem) : List.Sorted rankGE (rankedSortDesc l) :=
  List.sorted_insertionSort _ _

theorem analyzeReel_url {url : String} {s : List Snap} {it : RankedItem}
    (h : analyzeReel url s = some it) : it.url = url := by
  unfold analyzeReel at h
  rcases hs : sortSnapsDesc s with _ | ⟨cur, _ | ⟨prev, rest⟩⟩ <;> rw [hs] at h
  · exact absurd h (by simp)
  · exact absurd h (by simp)
  · rw [Option.some_inj] at h
    rw [← h]

theorem analyzeReel_none_of_lt_two {url : String} {s : List Snap}
    (h : s.length < 2) : analyzeReel url s = none := by
  unfold analyzeReel
  rcases hs : sortSnapsDesc s with _ | ⟨cur, _ | ⟨prev, rest⟩⟩
  · rfl
  · rfl
  · have := sortSnapsDesc_length s
    rw [hs] at this
    simp at this
    omega

theorem analyzeReel_isSome_of_two {url : String} {s : List Snap}
    (h : 2 ≤ s.length) : ∃ it, analyzeReel url s = some it := by
  have hl : 2 ≤ (sortSnapsDesc s).length := by rw [sortSnapsDesc_length]; exact h
  rcases hs : sortSnapsDesc s with _ | ⟨cur, _ | ⟨prev, rest⟩⟩
  · rw [hs] at hl; simp at hl
  · rw [hs] at hl; simp at hl
  · exact ⟨_, by unfold analyzeReel; rw [hs]⟩

/-! ## C1 -/

/-- C1: for every reel with at least two snapshots (most recent `cur`, second
most recent `prev`), the analyzer computes `rate_vph = (cur.views −
prev.views)/hours`, `engagement = (dl/hours)*1.5 + (dc/hours)*2.0`,
`score = rate_vph*1.2 + engagement` with `hours` floored at 0.01, and
classifies the trend by the first matching rule (`rate_vph ≥ 300 ∧ score ≥
prev_score*0.9` → PEAK; `rate_vph ≥ 80 ∧ score > prev_score` → RISING;
`rate_vph ≤ 20 ∧ score < prev_score` → DYING; else STABLE) against
`prev_score = max(prev.views/hours, 1)`; the stored rate and score are the
two-decimal roundings. The witness instantiates the spec's worked example. -/
theorem C1_scoring_and_trend (snaps : List Snap) (cur prev : Snap) (rest : List Snap)
    (url : String) (h : sortSnapsDesc snaps = cur :: prev :: rest) :
    analyzeReel url snaps =
      some { url := url,
             age := ⌊max ((cur.captured_at - prev.captured_at) / 3600) (1/100) * 60⌋,
             dv := cur.views - prev.views,
             dl := cur.likes - prev.likes,
             dc := cur.comments - prev.comments,
             rate := round2 (((cur.views - prev.views : Int) : ℚ) /
                       max ((cur.captured_at - prev.captured_at) / 3600) (1/100)),
             score := round2 ((((cur.views - prev.views : Int) : ℚ) /
                         max ((cur.captured_at - prev.captured_at) / 3600) (1/100)) * (6/5)
                       + ((((cur.likes - prev.likes : Int) : ℚ) /
                            max ((cur.captured_at - prev.captured_at) / 3600) (1/100)) * (3/2)
                          + (((cur.comments - prev.comments : Int) : ℚ) /
                              max ((cur.captured_at - prev.captured_at) / 3600) (1/100)) * 2)),
             trend :=
               detect_trend
                 (((cur.views - prev.views : Int) : ℚ) /
                   max ((cur.captured_at - prev.captured_at) / 3600) (1/100))
                 ((((cur.views - prev.views : Int) : ℚ) /
                     max ((cur.captured_at - prev.captured_at) / 3600) (1/100)) * (6/5)
                   + ((((cur.likes - prev.likes : Int) : ℚ) /
                        max ((cur.captured_at - prev.captured_at) / 3600) (1/100)) * (3/2)
                      + (((cur.comments - prev.comments : Int) : ℚ) /
                          max ((cur.captured_at - prev.captured_at) / 3600) (1/100)) * 2))
                 (max (((prev.views : Int) : ℚ) /
                     max ((cur.captured_at - prev.captured_at) / 3600) (1/100)) 1) } := by
  unfold analyzeReel
  rw [h]
  rfl

/-- Witness for C1 at the spec's worked example: prev views=1000 at T, cur
views=1400 at T+1h, likes +10, comments +5 give rate_vph=400, score=505
(prev_score=1000) and trend STABLE. -/
theorem C1_witness :
    analyzeReel "u" [exCur, exPrev] =
      some { url := "u", age := 60, dv := 400, dl := 10, dc := 5,
             rate := 400, score := 505, trend := Trend.STABLE } := by
  have h := C1_scoring_and_trend [exCur, exPrev] exCur exPrev [] "u" (by
    norm_num [sortSnapsDesc, List.insertionSort, List.orderedInsert, snapGE, exCur, exPrev])
  rw [h]
  norm_num [exCur, exPrev, round2, roundHalfEven, detect_trend, hours_between]

/-! ## C6 -/

/-- C6: the snapshot admission decision returns true whenever no prior
snapshot exists; with a prior snapshot `last` it returns true exactly when
the view delta reaches MIN_VIEW_DELTA, or likes or comments increased at
all, or at least 6 hours (360 minutes) elapsed since `last`; and false
otherwise. -/
theorem C6_snapshot_admission (now : ℚ) (snaps : List Snap) (reel : Obs) :
    (snaps = [] → should_insert_snapshot now snaps reel = true)
    ∧ (∀ last, (sortSnapsDesc snaps).head? = some last →
        (should_insert_snapshot now snaps reel = true ↔
          (MIN_VIEW_DELTA ≤ reel.views - last.views ∨ last.likes < reel.likes ∨
           last.comments < reel.comments ∨ (360 : ℚ) ≤ (now - last.captured_at) / 60))) := by
  constructor
  · intro h
    subst h
    rfl
  · intro last h
    unfold should_insert_snapshot
    rw [h]
    show (if reel.views - last.views ≥ MIN_VIEW_DELTA ∨ reel.likes - last.likes > 0 ∨
              reel.comments - last.comments > 0 then true
          else if (now - last.captured_at) / 60 ≥ 360 then true else false) = true ↔ _
    constructor
    · intro hres
      by_cases h1 : reel.views - last.views ≥ MIN_VIEW_DELTA ∨
          reel.likes - last.likes > 0 ∨ reel.comments - last.comments > 0
      · rcases h1 with h1 | h1 | h1
        · exact Or.inl h1
        · exact Or.inr (Or.inl (by omega))
        · exact Or.inr (Or.inr (Or.inl (by omega)))
      · rw [if_neg h1] at hres
        by_cases h2 : (now - last.captured_at) / 60 ≥ 360
        · exact Or.inr (Or.inr (Or.inr h2))
        · rw [if_neg h2] at hres
          exact absurd hres (by simp)
    · intro hc
      by_cases h1 : reel.views - last.views ≥ MIN_VIEW_DELTA ∨
          reel.likes - last.likes > 0 ∨ reel.comments - last.comments > 0
      · rw [if_pos h1]
      · rw [if_neg h1]
        rcases hc with hc | hc | hc | hc
        · exact absurd (Or.inl hc) h1
        · exact absurd (Or.inr (Or.inl (by omega))) h1
        · exact absurd (Or.inr (Or.inr (by omega))) h1
        · rw [if_pos hc]

/-- Witness for C6: the very first observation of an item is always
recorded. -/
theorem C6_witness :
    should_insert_snapshot 0 [] { views := 1, likes := 1, comments := 1 } = true :=
  (C6_snapshot_admission 0 [] { views := 1, likes := 1, comments := 1 }).1 rfl

/-! ## C7 -/

/-- C7: after a trim call for a (project, item) pair, at most
SNAPSHOT_RETENTION = 6 snapshots remain (exactly `min n 6` of the `n`
stored), every kept snapshot was stored, and every kept snapshot is at least
as recent as every deleted one — for any number and order of prior
inserts. -/
theorem C7_trim_retention (snaps : List Snap) :
    (trim_snapshots snaps).length = min snaps.length SNAPSHOT_RETENTION
    ∧ (∀ k ∈ trim_snapshots snaps, k ∈ snaps)
    ∧ (∀ k ∈ trim_snapshots snaps, ∀ d ∈ snaps, d ∉ trim_snapshots snaps →
        d.captured_at ≤ k.captured_at) := by
  unfold trim_snapshots
  split_ifs with hlen
  · refine ⟨?_, ?_, ?_⟩
    · rw [List.length_take, sortSnapsDesc_length, Nat.min_comm]
    · intro k hk
      exact (sortSnapsDesc_perm snaps).subset (List.take_subset _ _ hk)
    · intro k hk d hd hdn
      have hds : d ∈ sortSnapsDesc snaps := ((sortSnapsDesc_perm snaps).mem_iff).2 hd
      have hsplit : d ∈ List.take SNAPSHOT_RETENTION (sortSnapsDesc snaps) ∨
          d ∈ List.drop SNAPSHOT_RETENTION (sortSnapsDesc snaps) := by
        rw [← List.mem_append, List.take_append_drop]
        exact hds
      rcases hsplit with hcase | hcase
      · exact absurd hcase hdn
      · exact (sortSnapsDesc_sorted snaps).rel_of_mem_take_of_mem_drop hk hcase
  · refine ⟨?_, fun k hk => hk, ?_⟩
    · have hle : snaps.length ≤ SNAPSHOT_RETENTION := by omega
      omega
    · intro k _ d hd hdn
      exact absurd hd hdn

/-- Witness for C7: trimming eight scrambled snapshots keeps exactly six. -/
theorem C7_witness : (trim_snapshots exTrimSnaps).length = 6 :=
  (C7_trim_retention exTrimSnaps).1.trans (by decide)

/-! ## C8 -/

/-- C8: a reel whose last observation is more than HARD_STALE_DAYS = 3 days
in the past is pruned regardless of its snapshots or growth metrics; and
with fewer than two snapshots the flat/low-growth rule cannot fire — the
decision is exactly the disjunction of the hard-stale, inactivity and
old-and-weak rules. -/
theorem C8_prune_rules (now : ℚ) (reel : ReelRow) :
    (HARD_STALE_DAYS * 86400 < now - reel.last_seen_at →
      should_prune_reel now reel = true)
    ∧ (reel.snaps.length < 2 →
        (should_prune_reel now reel = true ↔
          (HARD_STALE_DAYS * 86400 < now - reel.last_seen_at
           ∨ MAX_INACTIVE_DAYS * 86400 < now - reel.last_seen_at
           ∨ (MAX_REEL_AGE_DAYS ≤ ⌊(now - reel.last_seen_at) / 86400⌋
              ∧ reel.views < MIN_TOTAL_VIEWS)))) := by
  constructor
  · intro h
    unfold should_prune_reel
    rw [if_pos h]
  · intro hlen
    have hsort := sortSnapsDesc_length reel.snaps
    unfold should_prune_reel
    rcases hs : sortSnapsDesc reel.snaps with _ | ⟨a, _ | ⟨b, t⟩⟩
    · by_cases h1 : now - reel.last_seen_at > HARD_STALE_DAYS * 86400
      · simp [h1]
      · by_cases h2 : now - reel.last_seen_at > MAX_INACTIVE_DAYS * 86400
        · simp [h1, h2]
        · simp [h1, h2, flatOrWeakGrowth, decide_eq_true_iff]
    · by_cases h1 : now - reel.last_seen_at > HARD_STALE_DAYS * 86400
      · simp [h1]
      · by_cases h2 : now - reel.last_seen_at > MAX_INACTIVE_DAYS * 86400
        · simp [h1, h2]
        · simp [h1, h2, flatOrWeakGrowth, decide_eq_true_iff]
    · rw [hs] at hsort
      simp at hsort
      omega

/-- Witness for C8: a strongly growing reel last observed 4 days ago is
pruned by the hard-staleness rule alone. -/
theorem C8_witness : should_prune_reel (4 * 86400) exStaleReel = true :=
  (C8_prune_rules (4 * 86400) exStaleReel).1 (by norm_num [HARD_STALE_DAYS, exStaleReel])

/-! ## C9 -/

/-- C9 counterexample: in `cexNode` the primary play-count field IS present
(with value 0), yet the parsed view count is 50 — the alternate field — not
the present primary value, because Python `or` treats 0 as absent. This
refutes "the view count equals the primary play-count field when it is
present". -/
theorem C9_counterexample :
    cexNode.play_count = some 0
    ∧ (parse_reels_from_json (some [cexNode])).map (fun it => it.views) = [50] := by
  exact ⟨rfl, rfl⟩

/-- C9 amended: every parsed item comes from a video node of the payload and
its view count is the first present-and-nonzero field among the primary play
count and the alternate video view count, else the like count (a present but
zero primary falls through); and the parser returns at most 5 items for any
input payload. -/
theorem C9_parse_views_and_cap (data : Option (List Node)) :
    (parse_reels_from_json data).length ≤ 5
    ∧ (∀ it ∈ parse_reels_from_json data, ∃ edges n, data = some edges ∧ n ∈ edges ∧
          n.is_video = true ∧ it = mkItem n)
    ∧ (∀ n : Node, (mkItem n).views = viewsBestMetric n) := by
  refine ⟨?_, ?_, ?_⟩
  · cases data with
    | none => simp [parse_reels_from_json]
    | some edges =>
      simp only [parse_reels_from_json]
      exact List.length_take_le _ _
  · intro it hit
    cases data with
    | none => simp [parse_reels_from_json] at hit
    | some edges =>
      simp only [parse_reels_from_json] at hit
      have hmem := List.mem_of_mem_take hit
      rcases List.mem_map.1 hmem with ⟨n, hn, hmk⟩
      rcases List.mem_filter.1 hn with ⟨hne, hvid⟩
      exact ⟨edges, n, rfl, hne, hvid, hmk.symm⟩
  · intro n
    cases hp : n.play_count <;> cases hv : n.video_view_count <;>
      simp [mkItem, pyOr, viewsBestMetric, hp, hv]

/-! ## C2 and C10 -/

theorem countP_url_eq_one {l : List ReelRow} {u : String}
    (hu : (l.map (fun r => r.reel_url)).Nodup) {r0 : ReelRow} (hr0 : r0 ∈ l)
    (hru : r0.reel_url = u) :
    l.countP (fun r => decide (r.reel_url = u)) = 1 := by
  induction l with
  | nil => simp at hr0
  | cons a t ih =>
    simp only [List.map_cons, List.nodup_cons] at hu
    rcases hu with ⟨hna, hnt⟩
    rcases List.mem_cons.1 hr0 with rfl | hr0t
    · rw [List.countP_cons_of_pos _ _ (by simp [hru])]
      have hzero : t.countP (fun r => decide (r.reel_url = u)) = 0 := by
        rw [List.countP_eq_zero]
        intro r hr hd
        rw [decide_eq_true_iff] at hd
        exact hna (by rw [hru, ← hd]; exact List.mem_map_of_mem _ hr)
      rw [hzero]
    · have hau : ¬(a.reel_url = u) := by
        intro hau
        exact hna (by rw [hau, ← hru]; exact List.mem_map_of_mem _ hr0t)
      rw [List.countP_cons_of_neg _ _ (by simp [hau])]
      exact ih hnt hr0t

/-- C2: after a completed non-preview analyze pass over a project with at
least one reel having two or more snapshots (and distinct reel urls, the
store key), exactly one reel of the project has `is_recommended = true`; all
recommendation flags are cleared by the first write; and reels with fewer
than two snapshots are excluded from ranking (their analyze step yields no
entry) rather than scored as zero. -/
theorem C2_single_recommendation (now : ℚ) (reels : List ReelRow)
    (hu : (reels.map (fun r => r.reel_url)).Nodup)
    (hex : ∃ r ∈ reels, 2 ≤ r.snaps.length) :
    (run_analyze_project false now reels).countP (fun r => r.is_recommended) = 1
    ∧ (∀ r ∈ clearFlags reels, r.is_recommended = false)
    ∧ (∀ r ∈ reels, r.snaps.length < 2 → analyzeReel r.reel_url r.snaps = none) := by
  obtain ⟨r0, hr0, hsnaps⟩ := hex
  obtain ⟨it0, hit0⟩ := @analyzeReel_isSome_of_two r0.reel_url r0.snaps hsnaps
  have hmem : it0 ∈ reels.filterMap (fun r => analyzeReel r.reel_url r.snaps) :=
    List.mem_filterMap.2 ⟨r0, hr0, hit0⟩
  rcases hbt : rankReels reels with _ | ⟨best, t⟩
  · exfalso
    have hnil : reels.filterMap (fun r => analyzeReel r.reel_url r.snaps) = [] := by
      have hp := rankedSortDesc_perm (reels.filterMap fun r => analyzeReel r.reel_url r.snaps)
      unfold rankReels at hbt
      rw [hbt] at hp
      exact (hp.symm).eq_nil
    rw [hnil] at hmem
    simp at hmem
  · have hbest : best ∈ reels.filterMap (fun r => analyzeReel r.reel_url r.snaps) := by
      have hp := rankedSortDesc_perm (reels.filterMap fun r => analyzeReel r.reel_url r.snaps)
      unfold rankReels at hbt
      rw [hbt] at hp
      exact hp.subset (List.mem_cons_self _ _)
    rcases List.mem_filterMap.1 hbest with ⟨rb, hrb, hrbeq⟩
    have hbu : best.url = rb.reel_url := analyzeReel_url hrbeq
    have hrun : run_analyze_project false now reels = flagBest best now (clearFlags reels) := by
      unfold run_analyze_project
      rw [hbt]
      rfl
    refine ⟨?_, ?_, ?_⟩
    · rw [hrun]
      unfold flagBest clearFlags
      rw [List.map_map, List.countP_map]
      have hcong : reels.countP
            ((fun r => r.is_recommended) ∘
              ((fun r => if r.reel_url = best.url then
                  { r with score := some best.score, trend := some best.trend,
                           is_recommended := true, analyzed_at := some now }
                else r) ∘ fun r => { r with is_recommended := false }))
          = reels.countP (fun r => decide (r.reel_url = best.url)) := by
        apply List.countP_congr
        intro r _
        by_cases hru : r.reel_url = best.url
        · simp [Function.comp, hru]
        · simp [Function.comp, hru]
      rw [hcong]
      exact countP_url_eq_one hu hrb hbu.symm
    · intro r hr
      rcases List.mem_map.1 hr with ⟨x, _, rfl⟩
      rfl
    · intro r _ hlen
      exact analyzeReel_none_of_lt_two hlen

/-- Witness for C2: on a project whose reel "a" has two snapshots and whose
reel "b" has one (and carries a stale recommendation flag), the completed
pass leaves exactly one recommended reel. -/
theorem C2_witness :
    (run_analyze_project false 7200 w2Reels).countP (fun r => r.is_recommended) = 1 :=
  (C2_single_recommendation 7200 w2Reels (by decide) (by decide)).1

/-- C10: in non-preview mode, when no reel of the project has at least two
snapshots, the analyze pass writes nothing: every is_recommended, score and
trend value is unchanged, and the recommended-reel lookup the delivery gate
performs finds the same row as before. -/
theorem C10_no_candidates_frame (now : ℚ) (reels : List ReelRow)
    (h : ∀ r ∈ reels, r.snaps.length < 2) :
    run_analyze_project false now reels = reels
    ∧ (run_analyze_project false now reels).find? (fun r => r.is_recommended)
        = reels.find? (fun r => r.is_recommended) := by
  have hnone : reels.filterMap (fun r => analyzeReel r.reel_url r.snaps) = [] := by
    rw [List.filterMap_eq_nil_iff]
    intro r hr
    exact analyzeReel_none_of_lt_two (h r hr)
  have hrun : run_analyze_project false now reels = reels := by
    unfold run_analyze_project rankReels
    rw [hnone]
    rfl
  exact ⟨hrun, by rw [hrun]⟩

/-- Witness for C10: a pass over a project with a previously recommended
one-snapshot reel and an empty-history reel changes nothing. -/
theorem C10_witness : run_analyze_project false 99999 w10Reels = w10Reels :=
  (C10_no_candidates_frame 99999 w10Reels (by decide)).1

/-! ## C4 -/

/-- C4 counterexample: after a run in which one fetch got HTTP 403, the
module-level blocked flag is true, and the *next* scheduler run — whose only
request would succeed with a parseable payload — still has the flag set and
its first fetch returns the BLOCKED sentinel without issuing a request: the
flag is NOT reset at the start of the next run. -/
theorem C4_counterexample :
    (monitorFetchLoop { response_blocked := false } run1Outcomes).1.response_blocked = true
    ∧ monitorFetchLoop (monitorFetchLoop { response_blocked := false } run1Outcomes).1
        run2Outcomes = ({ response_blocked := true }, [none]) := by
  exact ⟨rfl, rfl⟩

/-- C4 amended: once a fetch receives HTTP 401, 403 or 429 the process-wide
blocked flag is set and every subsequent fetch call — in the current run and
in every later run of the process — short-circuits and returns the BLOCKED
sentinel (None, distinct from the empty list) without issuing a request; the
flag is never reset: neither the fetch module nor the scheduler clears it
(only `run_monitor`'s run-local `blocked` variable starts fresh each run). -/
theorem C4_hard_block_sticky (st : FetchState) (out : HttpOutcome) :
    (st.response_blocked = true → fetch_reels st out = (none, st, false))
    ∧ (∀ status body, st.response_blocked = false →
        (status = 401 ∨ status = 403 ∨ status = 429) →
        fetch_reels st (.resp status body) = (none, { response_blocked := true }, true))
    ∧ (st.response_blocked = true → (fetch_reels st out).1 ≠ some [])
    ∧ (st.response_blocked = true →
        ∀ os, (monitorFetchLoop st os).1.response_blocked = true) := by
  refine ⟨?_, ?_, ?_, ?_⟩
  · intro h
    simp [fetch_reels, h]
  · intro status body hb hor
    simp only [fetch_reels, hb, Bool.false_eq_true, if_false]
    rw [if_pos hor]
  · intro h
    simp [fetch_reels, h]
  · intro h os
    cases os with
    | nil => exact h
    | cons o os =>
      simp [monitorFetchLoop, fetch_reels, h]

/-! ## C3 and C5 -/

theorem startOfUtcDay_le (t : ℚ) : startOfUtcDay t ≤ t := by
  unfold startOfUtcDay
  have h := Int.floor_le (t / 86400)
  have h2 : (⌊t / 86400⌋ : ℚ) * 86400 ≤ (t / 86400) * 86400 :=
    mul_le_mul_of_nonneg_right h (by norm_num)
  calc (⌊t / 86400⌋ : ℚ) * 86400 ≤ (t / 86400) * 86400 := h2
    _ = t := by field_simp

theorem deliver_project_send_raises (now : ℚ) (sent : List SentRecord)
    (p : DeliverProject) :
    (deliver_project now sent p false).1 = sent
    ∧ (deliver_project now sent p false).2.1 = 0 := by
  unfold deliver_project
  rcases hset : p.settings with _ | s
  · exact ⟨rfl, rfl⟩
  rcases hchat : p.chat_id with _ | c
  · exact ⟨rfl, rfl⟩
  dsimp only
  split_ifs with hg1 hg2 hg3
  · exact ⟨rfl, rfl⟩
  · exact ⟨rfl, rfl⟩
  · exact hg3.elim
  · cases hf : p.reels.find? (fun r => r.is_recommended) with
    | none => exact ⟨rfl, rfl⟩
    | some reel => exact ⟨rfl, rfl⟩

/-- The success path of `deliver_project` for a fully eligible project: the
send either appends one SentRecord (count 1) or raises (nothing written,
exception propagated). -/
theorem deliver_project_eligible (now : ℚ) (sent : List SentRecord) (p : DeliverProject)
    (s : DeliverySettings) (c : String) (reel : ReelRow) (ok : Bool)
    (hset : p.settings = some s) (hchat : p.chat_id = some c)
    (hdue : is_delivery_due s now = true)
    (hnot : already_sent_today sent p.id now = false)
    (hfind : p.reels.find? (fun r => r.is_recommended) = some reel) :
    deliver_project now sent p ok =
      if ok then
        (sent ++ [{ project_id := p.id, reel_url := reel.reel_url, sent_at := now }], 1, true)
      else (sent, 0, false) := by
  unfold deliver_project
  rw [hset, hchat]
  dsimp only
  rw [if_neg (by simp [DEV_MODE, hdue]), if_neg (by simp [DEV_MODE, hnot]), hfind]

/-- The local-time gate holds at `now = 100` for midnight-UTC settings. -/
theorem is_delivery_due_w100 : is_delivery_due wSettings 100 = true := by
  norm_num [is_delivery_due, wSettings, secondsIntoLocalDay, startOfUtcDay]

/-- C3: if the first delivery call of a UTC day succeeds for a project
(appending one SentRecord), then any second call the same UTC day finds a
sent_reels row with sent_at on or after the start of the current UTC day,
skips the project, contributes 0 to the delivered count and leaves the
sent_reels log unchanged — exactly one delivery and one SentRecord result. -/
theorem C3_idempotent_daily_delivery (now1 now2 : ℚ) (sent0 sent1 : List SentRecord)
    (p : DeliverProject) (b : Bool)
    (h1 : deliver_project now1 sent0 p true = (sent1, 1, true))
    (hday : startOfUtcDay now2 = startOfUtcDay now1) :
    already_sent_today sent1 p.id now2 = true
    ∧ deliver_project now2 sent1 p b = (sent1, 0, true)
    ∧ sent1.length = sent0.length + 1 := by
  unfold deliver_project at h1
  rcases hset : p.settings with _ | s
  · rw [hset] at h1
    simp at h1
  rw [hset] at h1
  rcases hchat : p.chat_id with _ | c
  · rw [hchat] at h1
    simp at h1
  rw [hchat] at h1
  dsimp only at h1
  by_cases hdue1 : is_delivery_due s now1
  swap
  · rw [if_pos (by simp [DEV_MODE, hdue1])] at h1
    simp at h1
  rw [if_neg (by simp [DEV_MODE, hdue1])] at h1
  by_cases hsent0 : already_sent_today sent0 p.id now1
  · rw [if_pos (by simp [DEV_MODE, hsent0])] at h1
    simp at h1
  rw [if_neg (by simp [DEV_MODE, hsent0])] at h1
  rcases hfind : p.reels.find? (fun r => r.is_recommended) with _ | reel
  · rw [hfind] at h1
    simp at h1
  rw [hfind] at h1
  dsimp only at h1
  have hsent1 : sent1 = sent0 ++ [⟨p.id, reel.reel_url, now1⟩] := by
    have hfst := congrArg Prod.fst h1
    simpa using hfst.symm
  have hsenttoday : already_sent_today sent1 p.id now2 = true := by
    unfold already_sent_today
    rw [List.any_eq_true]
    refine ⟨⟨p.id, reel.reel_url, now1⟩, ?_, ?_⟩
    · rw [hsent1]
      exact List.mem_append_right _ (List.mem_singleton_self _)
    · rw [decide_eq_true_iff]
      exact ⟨rfl, by rw [hday]; exact startOfUtcDay_le now1⟩
  refine ⟨hsenttoday, ?_, ?_⟩
  · unfold deliver_project
    rw [hset, hchat]
    dsimp only
    by_cases hdue2 : is_delivery_due s now2
    · rw [if_neg (by simp [DEV_MODE, hdue2])]
      rw [if_pos (by simp [DEV_MODE, hsenttoday])]
    · rw [if_pos (by simp [DEV_MODE, hdue2])]
  · rw [hsent1]
    simp

/-- Witness for C3: project "p3" delivered at t=100; the second call at
t=200 the same UTC day is a no-op with zero contribution, and exactly one
SentRecord exists. -/
theorem C3_witness :
    already_sent_today [{ project_id := "p3", reel_url := "r3", sent_at := 100 }] "p3" 200 = true
    ∧ deliver_project 200 [{ project_id := "p3", reel_url := "r3", sent_at := 100 }] wProj3 true
        = ([{ project_id := "p3", reel_url := "r3", sent_at := 100 }], 0, true)
    ∧ ([{ project_id := "p3", reel_url := "r3", sent_at := (100 : ℚ) }] : List SentRecord).length
        = ([] : List SentRecord).length + 1 :=
  C3_idempotent_daily_delivery 100 200 []
    [{ project_id := "p3", reel_url := "r3", sent_at := 100 }] wProj3 true
    (by rw [deliver_project_eligible 100 [] wProj3 wSettings "c3" wReel3 true rfl rfl
          is_delivery_due_w100 rfl rfl]
        rfl)
    (by norm_num [startOfUtcDay])

/-- C5 counterexample: two fully eligible projects; the notification send
for "p1" raises while "p2" would succeed. The pass writes no SentRecord for
"p1" (that half of the claim holds) but the exception aborts run_deliver:
"p2" is never processed and nothing at all is delivered, although "p2"
alone would have been delivered — refuting "the failure does not abort the
delivery routine's processing of the remaining projects". -/
theorem C5_counterexample :
    run_deliver 100 cexSendOk [wProj1, wProj2] [] = ([], 0, false)
    ∧ run_deliver 100 cexSendOk [wProj2] [] =
        ([{ project_id := "p2", reel_url := "r2", sent_at := 100 }], 1, true) := by
  have hd1 : deliver_project 100 [] wProj1 (cexSendOk wProj1.id) = ([], 0, false) := by
    rw [deliver_project_eligible 100 [] wProj1 wSettings "c1" wReel1 (cexSendOk wProj1.id)
        rfl rfl is_delivery_due_w100 rfl rfl]
    rfl
  have hd2 : deliver_project 100 [] wProj2 (cexSendOk wProj2.id) =
      ([{ project_id := "p2", reel_url := "r2", sent_at := 100 }], 1, true) := by
    rw [deliver_project_eligible 100 [] wProj2 wSettings "c2" wReel2 (cexSendOk wProj2.id)
        rfl rfl is_delivery_due_w100 rfl rfl]
    rfl
  constructor
  · show (match deliver_project 100 [] wProj1 (cexSendOk wProj1.id) with
          | (sent1, cnt, true) =>
            let rest := run_deliver 100 cexSendOk [wProj2] sent1
            (rest.1, cnt + rest.2.1, rest.2.2)
          | (sent1, cnt, false) => (sent1, cnt, false)) = ([], 0, false)
    rw [hd1]
  · show (match deliver_project 100 [] wProj2 (cexSendOk wProj2.id) with
          | (sent1, cnt, true) =>
            let rest := run_deliver 100 cexSendOk [] sent1
            (rest.1, cnt + rest.2.1, rest.2.2)
          | (sent1, cnt, false) => (sent1, cnt, false))
        = ([{ project_id := "p2", reel_url := "r2", sent_at := 100 }], 1, true)
    rw [hd2]
    rfl

/-- C5 amended: when the notification send for one project raises, no
SentRecord is written for that project and its count contribution is 0 (so
it is retried on the next eligible check that day), but the exception
propagates out of the delivery routine: the remaining projects of the pass
are not processed (the scheduler's delivery loop catches the exception and
retries the whole pass on its next tick). -/
theorem C5_send_failure_semantics (now : ℚ) (sent : List SentRecord)
    (p : DeliverProject) (ps : List DeliverProject) (sendOk : String → Bool)
    (hfail : deliver_project now sent p (sendOk p.id) = (sent, 0, false)) :
    (deliver_project now sent p false).1 = sent
    ∧ (deliver_project now sent p false).2.1 = 0
    ∧ run_deliver now sendOk (p :: ps) sent = (sent, 0, false) := by
  refine ⟨(deliver_project_send_raises now sent p).1,
          (deliver_project_send_raises now sent p).2, ?_⟩
  show (match deliver_project now sent p (sendOk p.id) with
        | (sent1, c, true) =>
          let rest := run_deliver now sendOk ps sent1
          (rest.1, c + rest.2.1, rest.2.2)
        | (sent1, c, false) => (sent1, c, false)) = (sent, 0, false)
  rw [hfail]

/-- Witness for C5's amended claim at the concrete two-project scenario. -/
theorem C5_witness :
    run_deliver 100 cexSendOk [wProj1, wProj2] [] = ([], 0, false) :=
  (C5_send_failure_semantics 100 [] wProj1 [wProj2] cexSendOk
    (by rw [deliver_project_eligible 100 [] wProj1 wSettings "c1" wReel1
          (cexSendOk wProj1.id) rfl rfl is_delivery_due_w100 rfl rfl]
        rfl)).2.2

end InstaPipeline
